/-
  Verification of the landscaping-estimator conversational intake and
  pricing core against its natural-language specification.

  Shallow embedding of:
  - the deterministic pricing engine (`calculateUKEstimate`,
    `calculateSkipLoads`, `determineProjectStatus` and their rate tables),
    from src/src/quickReplies.ts (pricing-engine section);
  - the lexical field extractor (`extractLocalInformation`),
    from src/unnamed/part_004 (primary variant, lines 9-487);
  - the dialogue state manager (`calculateCertainty`, `detectCurrentField`,
    `updateStateWithExtraction`, `isReadyForEstimate`),
    from src/src/conversationManager.ts;
  - the quick-reply fallback literals (`getFallbackQuickReplies`),
    from src/unnamed/part_005.

  Modelling conventions:
  - JavaScript numbers are modelled as exact rationals (ℚ); the source's
    arithmetic is decimal money/measure arithmetic and no claim depends on
    binary floating-point artifacts.  `Math.round` is round-half-up
    (`jround`), `Math.ceil` is `jceil`; both land in ℤ, matching the fact
    that every stored monetary amount in the source is an integer number
    of pounds.
  - JavaScript truthiness is modelled explicitly: a numeric field guard
    `if (x)` on a possibly-absent number is `jsTruthyQ` (present and
    nonzero), a string guard is `jsTruthyS` (present and nonempty).
  - Presentational strings (line-item labels, notes, the surveyor's-note
    narrative, quick-reply button captions) are never parsed by the code
    under verification; line-item labels are modelled as an inductive tag
    carrying the same discriminating data (e.g. the skip count), notes and
    the narrative are omitted, and quick replies are modelled by their
    `value` payload, the only part fed back into the extractor.
  - Strings handled by the extractor are `List Char`.  JavaScript regexes
    are modelled by a small backtracking matcher (`RE`, `reMats`) with
    JavaScript semantics: leftmost match, ordered alternation, greedy
    quantifiers with backtracking, capturing groups, negative lookahead
    and word boundaries.  `toLowerCase` is ASCII lowering (all keyword
    literals in the source are ASCII).
  - The `messageHistory` bookkeeping field (chat transcript) is omitted
    from the state: none of the verified functions read it.
-/
import Mathlib

namespace Landscaping

-- ===========================================================================
-- JS-number helpers
-- ===========================================================================

/-- `Math.round` on a JS number: round half up. -/
def jround (q : ℚ) : ℤ := ⌊q + 1/2⌋

/-- `Math.ceil` on a JS number. -/
def jceil (q : ℚ) : ℤ := ⌈q⌉

/-- JS truthiness of an optional number: present and nonzero. -/
def jsTruthyQ : Option ℚ → Bool
  | none => false
  | some q => decide (q ≠ 0)

/-- JS truthiness of an optional integer: present and nonzero. -/
def jsTruthyZ : Option ℤ → Bool
  | none => false
  | some z => decide (z ≠ 0)

/-- JS truthiness of an optional string: present and nonempty. -/
def jsTruthyS : Option (List Char) → Bool
  | none => false
  | some s => !s.isEmpty

-- ===========================================================================
-- Domain enumerations (src/src/quickReplies.ts, type definitions)
-- ===========================================================================

inductive ServiceType
  | hardscaping | decking | softscaping | mowing | planting | fencing | framing
deriving DecidableEq, Repr, Fintype

inductive MaterialTier
  | standard | premium | luxury
deriving DecidableEq, Repr, Fintype

inductive SlopeLevel
  | flat | moderate | steep
deriving DecidableEq, Repr, Fintype

inductive SubBaseType
  | dirt | hardscape
deriving DecidableEq, Repr, Fintype

-- ===========================================================================
-- Pricing engine (src/src/quickReplies.ts, pricing-engine section)
-- ===========================================================================

structure ProjectInputs where
  service : ServiceType
  hasExcavatorAccess : Bool
  hasDrivewayForSkip : Bool
  slopeLevel : SlopeLevel
  subBaseType : SubBaseType
  existingDemolition : Bool
  length_m : ℚ
  width_m : ℚ
  area_m2 : ℚ
  materialTier : MaterialTier
  deckHeight_m : Option ℚ := none
deriving DecidableEq, Repr

/-- `UK_2026_RATES[service][tier].rate` (the installed rate per m²). -/
def ratePerM2 : ServiceType → MaterialTier → ℚ
  | .hardscaping, .standard => 95
  | .hardscaping, .premium => 125
  | .hardscaping, .luxury => 155
  | .decking, .standard => 105
  | .decking, .premium => 180
  | .decking, .luxury => 240
  | .softscaping, .standard => 45
  | .softscaping, .premium => 75
  | .softscaping, .luxury => 110
  | .mowing, .standard => 45
  | .mowing, .premium => 65
  | .mowing, .luxury => 95
  | .planting, .standard => 45
  | .planting, .premium => 95
  | .planting, .luxury => 150
  | .fencing, .standard => 75
  | .fencing, .premium => 125
  | .fencing, .luxury => 185
  | .framing, .standard => 350
  | .framing, .premium => 550
  | .framing, .luxury => 850

def LABOR_RATE_PER_HOUR_GBP : ℚ := 85

def SURCHARGES_councilPermit : ℤ := 60
def SURCHARGES_steepSlopeGrading : ℤ := 8000
def SURCHARGES_highAltitudeScaffolding : ℤ := 1800
def SURCHARGES_skipLoad : ℤ := 350

def BUSINESS_FEES_projectManagement : ℚ := 10/100
def BUSINESS_FEES_contingency : ℚ := 5/100
def BUSINESS_FEES_netProfit : ℚ := 15/100

/-- `estimateLaborHours`: hours-per-m² base rate per service. -/
def laborBaseRate : ServiceType → ℚ
  | .hardscaping => 5/10
  | .decking => 6/10
  | .softscaping => 3/10
  | .mowing => 8/100
  | .planting => 4/10
  | .fencing => 25/100
  | .framing => 8/10

def estimateLaborHours (area_m2 : ℚ) (service : ServiceType) : ℚ :=
  area_m2 * laborBaseRate service

/-- `calculateSkipLoads`: skips needed for demolition waste.  The code's
constant `TONS_PER_SKIP` is 1 (the comment's 2-ton figure was deliberately
replaced by a conservative 1 ton per skip). -/
def WOOD_DENSITY_TONS_PER_M3 : ℚ := 6/10
def AVERAGE_THICKNESS_M : ℚ := 15/100
def TONS_PER_SKIP : ℚ := 1

def calculateSkipLoads (area_m2 : ℚ) : ℤ :=
  let volume_m3 := area_m2 * AVERAGE_THICKNESS_M
  let weight_tons := volume_m3 * WOOD_DENSITY_TONS_PER_M3
  jceil (weight_tons / TONS_PER_SKIP)

inductive ProjectStatus
  | vipPriority | standard
deriving DecidableEq, Repr

/-- `determineProjectStatus`: VIP if estimate strictly exceeds £5,000. -/
def determineProjectStatus (estimate : ℚ) : ProjectStatus :=
  if estimate > 5000 then .vipPriority else .standard

inductive ItemKind
  | material | labor | surcharge | fee
deriving DecidableEq, Repr

/-- Line-item labels as tags carrying the data interpolated into the
source's label strings (restricted-access flag, skip count). -/
inductive ItemLabel
  | materialL
  | laborL (restricted : Bool)
  | councilPermitL
  | slopeGradingL
  | demolitionWasteL (skips : ℤ)
  | scaffoldingL
  | projectManagementL
  | contingencyL
  | netProfitL
deriving DecidableEq, Repr

structure LineItem where
  label : ItemLabel
  amount : ℤ
  kind : ItemKind
deriving DecidableEq, Repr

structure EstimateResult where
  lowerBound : ℤ
  estimate : ℤ
  upperBound : ℤ
  lineItems : List LineItem
  projectStatus : ProjectStatus
deriving DecidableEq, Repr

/-- STEP 1: base material cost line. -/
def materialItem (i : ProjectInputs) : LineItem :=
  { label := .materialL
    amount := jround (i.area_m2 * ratePerM2 i.service i.materialTier)
    kind := .material }

/-- STEP 2 + STEP 3: labor cost, with the 1.45 hand-labor multiplier on
labor only when excavator access is denied. -/
def laborCost (i : ProjectInputs) : ℚ :=
  let base := estimateLaborHours i.area_m2 i.service * LABOR_RATE_PER_HOUR_GBP
  if !i.hasExcavatorAccess then base * (145/100) else base

def laborItem (i : ProjectInputs) : LineItem :=
  { label := .laborL (!i.hasExcavatorAccess)
    amount := jround (laborCost i)
    kind := .labor }

/-- STEP 4: additive surcharges, in the source's order. -/
def surchargeItems (i : ProjectInputs) : List LineItem :=
  (if !i.hasDrivewayForSkip then
    [{ label := .councilPermitL, amount := SURCHARGES_councilPermit, kind := .surcharge }]
   else []) ++
  (if i.slopeLevel = .steep then
    [{ label := .slopeGradingL, amount := SURCHARGES_steepSlopeGrading, kind := .surcharge }]
   else []) ++
  (if i.existingDemolition then
    [{ label := .demolitionWasteL (calculateSkipLoads i.area_m2)
       amount := calculateSkipLoads i.area_m2 * SURCHARGES_skipLoad
       kind := .surcharge }]
   else []) ++
  (if jsTruthyQ i.deckHeight_m && decide ((i.deckHeight_m.getD 0) > 3/2) then
    [{ label := .scaffoldingL, amount := SURCHARGES_highAltitudeScaffolding, kind := .surcharge }]
   else [])

def preFeeItems (i : ProjectInputs) : List LineItem :=
  materialItem i :: laborItem i :: surchargeItems i

/-- STEP 5: subtotal over the (pre-fee) line items. -/
def subtotal (i : ProjectInputs) : ℤ :=
  (preFeeItems i).foldl (fun sum item => sum + item.amount) 0

/-- STEP 6: business wrapper fees, each on the subtotal. -/
def projectManagementFee (i : ProjectInputs) : ℤ :=
  jround ((subtotal i : ℚ) * BUSINESS_FEES_projectManagement)

def contingencyFee (i : ProjectInputs) : ℤ :=
  jround ((subtotal i : ℚ) * BUSINESS_FEES_contingency)

def netProfitFee (i : ProjectInputs) : ℤ :=
  jround ((subtotal i : ℚ) * BUSINESS_FEES_netProfit)

def finalCost (i : ProjectInputs) : ℤ :=
  subtotal i + projectManagementFee i + contingencyFee i + netProfitFee i

/-- `calculateUKEstimate`: the cumulative calculation model. -/
def calculateUKEstimate (i : ProjectInputs) : EstimateResult :=
  let estimate := jround ((finalCost i : ℚ))
  { lowerBound := jround ((finalCost i : ℚ) * (90/100))
    estimate := estimate
    upperBound := jround ((finalCost i : ℚ) * (110/100))
    lineItems :=
      preFeeItems i ++
      [{ label := .projectManagementL, amount := projectManagementFee i, kind := .fee },
       { label := .contingencyL, amount := contingencyFee i, kind := .fee },
       { label := .netProfitL, amount := netProfitFee i, kind := .fee }]
    projectStatus := determineProjectStatus (estimate : ℚ) }

-- ===========================================================================
-- A small backtracking regex matcher with JavaScript semantics
-- (leftmost match, ordered alternation, greedy quantifiers with
-- backtracking, capturing groups, negative lookahead, word boundaries).
-- Counted repetition is desugared at pattern-construction time.
-- ===========================================================================

inductive RE
  | eps
  | lit (c : Char)
  | cls (cs : List Char) (neg : Bool)
  | seq (a b : RE)
  | alt (a b : RE)
  | opt (a : RE)
  | star (a : RE)
  | group (n : Nat) (a : RE)
  | nla (a : RE)
  | wordB
deriving Repr

/-- JS `\w`: ASCII letter, digit or underscore. -/
def isWordChar (c : Char) : Bool := c.isAlpha || c.isDigit || c == '_'

/-- Matcher state: the character before the current position (for `\b`),
the remaining input, and the captures recorded so far (latest first). -/
structure MSt where
  prev : Option Char
  rest : List Char
  caps : List (Nat × List Char)
deriving Repr

/-- All ways `r` can match a prefix of `st.rest`, in JS backtracking
priority order (head = the match the JS engine commits to).  The fuel
bounds the call depth (structural recursion, so the kernel can evaluate
it); `reFuel` below always supplies enough. -/
def reMats : Nat → RE → MSt → List MSt
  | 0, _, _ => []
  | fuel + 1, r, st =>
    match r with
    | .eps => [st]
    | .wordB =>
      let l := match st.prev with | none => false | some c => isWordChar c
      let rt := match st.rest with | [] => false | c :: _ => isWordChar c
      if l != rt then [st] else []
    | .lit c =>
      match st.rest with
      | [] => []
      | x :: xs => if x == c then [⟨some x, xs, st.caps⟩] else []
    | .cls cs neg =>
      match st.rest with
      | [] => []
      | x :: xs => if cs.contains x != neg then [⟨some x, xs, st.caps⟩] else []
    | .seq a b => (reMats fuel a st).flatMap (fun st2 => reMats fuel b st2)
    | .alt a b => reMats fuel a st ++ reMats fuel b st
    | .opt a => reMats fuel a st ++ [st]
    | .star a =>
      ((reMats fuel a st).flatMap (fun st2 =>
        if st2.rest.length < st.rest.length then reMats fuel (.star a) st2
        else [st2])) ++ [st]
    | .group n a =>
      (reMats fuel a st).map (fun st2 =>
        let consumed := st.rest.take (st.rest.length - st2.rest.length)
        ⟨st2.prev, st2.rest, (n, consumed) :: st2.caps⟩)
    | .nla a => if (reMats fuel a st).isEmpty then [st] else []

/-- Node count of a pattern, used to size the fuel. -/
def reSize : RE → Nat
  | .eps => 1
  | .wordB => 1
  | .lit _ => 1
  | .cls _ _ => 1
  | .seq a b => reSize a + reSize b + 1
  | .alt a b => reSize a + reSize b + 1
  | .opt a => reSize a + 1
  | .star a => reSize a + 1
  | .group _ a => reSize a + 1
  | .nla a => reSize a + 1

/-- Ample fuel: the call depth is bounded by the pattern size times the
number of positions (each `star` re-entry consumes at least one
character). -/
def reFuel (r : RE) (s : List Char) : Nat := (s.length + 2) * (reSize r + 2)

/-- Result of `String.prototype.match`: index, `match[0]`, captures. -/
structure RMatch where
  idx : Nat
  matched : List Char
  caps : List (Nat × List Char)
deriving Repr

/-- Scan start positions left to right; at the first position where the
pattern matches, commit to the engine's first outcome. -/
def reSearchAux (r : RE) (prev : Option Char) (s : List Char) (i : Nat) : Option RMatch :=
  match reMats (reFuel r s) r ⟨prev, s, []⟩ with
  | st :: _ => some ⟨i, s.take (s.length - st.rest.length), st.caps⟩
  | [] =>
    match s with
    | [] => none
    | c :: cs => reSearchAux r (some c) cs (i + 1)

/-- `msg.match(r)`, returning the first (leftmost) match. -/
def reSearch (r : RE) (s : List Char) : Option RMatch := reSearchAux r none s 0

/-- Capture group `n` of a match (`none` = JS `undefined`). -/
def capGet (m : RMatch) (n : Nat) : Option (List Char) :=
  (m.caps.find? (fun p => p.1 == n)).map (fun p => p.2)

/-- `r.test(s)` for a pattern anchored as `^...$`: some backtracking
outcome at position 0 consumes the whole input. -/
def reTestFull (r : RE) (s : List Char) : Bool :=
  (reMats (reFuel r s) r ⟨none, s, []⟩).any (fun st => st.rest.isEmpty)

-- Pattern-construction helpers ----------------------------------------------

/-- Literal string as a sequence of literal characters. -/
def rstr (s : String) : RE :=
  s.toList.foldr (fun c r => RE.seq (.lit c) r) .eps

/-- Ordered alternation (first alternative preferred, as in JS). -/
def ralts (rs : List RE) : RE :=
  match rs with
  | [] => .nla .eps   -- unmatchable; never used with an empty list
  | [r] => r
  | r :: rest => .alt r (ralts rest)

def rseqs (rs : List RE) : RE :=
  rs.foldr (fun a b => RE.seq a b) .eps

/-- Exactly `n` copies. -/
def rrep (r : RE) : Nat → RE
  | 0 => .eps
  | n + 1 => .seq r (rrep r n)

/-- Greedy `{lo,hi}`: `lo` required copies then nested greedy options. -/
def rmore (r : RE) : Nat → RE
  | 0 => .eps
  | n + 1 => .opt (.seq r (rmore r n))

def rrange (r : RE) (lo hi : Nat) : RE := .seq (rrep r lo) (rmore r (hi - lo))

/-- Greedy `+`. -/
def rplus (r : RE) : RE := .seq r (.star r)

/-- Greedy `{lo,}`. -/
def ratleast (r : RE) (lo : Nat) : RE := .seq (rrep r lo) (.star r)

/-- JS `\d`. -/
def rdigit : RE := .cls "0123456789".toList false

/-- JS `\s` (the whitespace characters that occur in this code base). -/
def spaceChars : List Char := [' ', '\t', '\n', '\r']
def rspace : RE := .cls spaceChars false
def rsstar : RE := .star rspace

-- ===========================================================================
-- String helpers (JS semantics on the character sets this code base uses)
-- ===========================================================================

/-- String literal as a character list. -/
def kw (s : String) : List Char := s.toList

/-- Does `p` occur as a contiguous substring of `s`? -/
def hasInfix (s p : List Char) : Bool :=
  if p.isPrefixOf s then true
  else
    match s with
    | [] => false
    | _ :: t => hasInfix t p

/-- `msg.includes(p)`. -/
def inc (msg : List Char) (p : String) : Bool := hasInfix msg p.toList

def incAny (msg : List Char) (ps : List (List Char)) : Bool :=
  ps.any (fun p => hasInfix msg p)

/-- ASCII `toLowerCase` (every keyword in the source is ASCII). -/
def lowerChar (c : Char) : Char :=
  if 'A' ≤ c ∧ c ≤ 'Z' then Char.ofNat (c.toNat + 32) else c

def lowerStr (s : List Char) : List Char := s.map lowerChar

def upperChar (c : Char) : Char :=
  if 'a' ≤ c ∧ c ≤ 'z' then Char.ofNat (c.toNat - 32) else c

def upperStr (s : List Char) : List Char := s.map upperChar

def isSpaceChar (c : Char) : Bool := spaceChars.contains c

/-- JS `trim`. -/
def trimStr (s : List Char) : List Char :=
  ((s.dropWhile isSpaceChar).reverse.dropWhile isSpaceChar).reverse

/-- `s.split(' ').length`. -/
def wordCountOf (s : List Char) : Nat := (s.filter (fun c => c == ' ')).length + 1

/-- Digits of a decimal numeral. -/
def parseNatL (ds : List Char) : ℕ :=
  ds.foldl (fun a c => a * 10 + (c.toNat - 48)) 0

/-- `parseFloat` on a capture of shape `\d+([.,]\d+)?` after the source's
`replace(',', '.')`. -/
def parseQnum (s : List Char) : ℚ :=
  let ip := s.takeWhile (fun c => c.isDigit)
  let rest := s.drop ip.length
  match rest with
  | _ :: frac => (parseNatL ip : ℚ) + (parseNatL frac : ℚ) / ((10 ^ frac.length : ℕ) : ℚ)
  | [] => (parseNatL ip : ℚ)

/-- Merge helper: a conditional assignment (`some` overwrites, `none`
means the source did not assign). -/
def oupd {α : Type} (new old : Option α) : Option α :=
  match new with
  | some v => some v
  | none => old

-- ===========================================================================
-- Extraction result (ExtractedInfo, src/src/conversationManager.ts)
-- ===========================================================================

structure ExtractedInfo where
  service : Option ServiceType := none
  area_m2 : Option ℚ := none
  length_m : Option ℚ := none
  width_m : Option ℚ := none
  materialTier : Option MaterialTier := none
  hasExcavatorAccess : Option Bool := none
  hasDrivewayForSkip : Option Bool := none
  slopeLevel : Option SlopeLevel := none
  subBaseType : Option SubBaseType := none
  existingDemolition : Option Bool := none
  deckHeight_m : Option ℚ := none
  overgrown : Option Bool := none
  gateCount : Option ℤ := none
  wantsDrainage : Option Bool := none
  wantsLedLighting : Option Bool := none
  budgetAligns : Option Bool := none
  fullName : Option (List Char) := none
  userBudget : Option ℚ := none
  postalCode : Option (List Char) := none
  contactEmail : Option (List Char) := none
  contactPhone : Option (List Char) := none
  projectStartTiming : Option (List Char) := none
  groundSoilType : Option (List Char) := none
  explicitBudget : Option Bool := none
deriving DecidableEq, Repr

-- ===========================================================================
-- The lexical field extractor (`extractLocalInformation`,
-- src/unnamed/part_004, primary variant).  All regexes are matched
-- against the lowercased message, which is equivalent for these
-- case-insensitive patterns.
-- ===========================================================================

/-- `(\d+(?:[.,]\d+)?)` without the group marker. -/
def rnum : RE := .seq (rplus rdigit) (.opt (.seq (.cls [',', '.'] false) (rplus rdigit)))

/-- `(?:m|meter|metre)` in source order. -/
def runitM : RE := ralts [rstr "m", rstr "meter", rstr "metre"]

def rxby : RE := ralts [rstr "x", rstr "by", rstr "×"]

/-- First dimension pattern. -/
def dimRE1 : RE :=
  rseqs [.group 1 rnum, rsstar, .opt runitM, rsstar, rxby, rsstar,
         .group 2 rnum, rsstar, .opt runitM]

/-- Second dimension pattern. -/
def dimRE2 : RE :=
  rseqs [.group 1 rnum, rsstar, .lit 'm', rsstar, rxby, rsstar, .group 2 rnum]

/-- Deck-height pattern. -/
def heightRE : RE :=
  rseqs [.group 1 rnum, rsstar,
         .opt (ralts [rstr "m",
                      .seq (rstr "meter") (.opt (.lit 's')),
                      .seq (rstr "metre") (.opt (.lit 's'))]),
         rsstar,
         .opt (ralts [rstr "high", rstr "height",
                      rseqs [rstr "off", rsstar, .opt (.seq (rstr "the") rsstar),
                             rstr "ground"]])]

/-- Bare-area pattern with its trailing negative lookahead. -/
def areaRE : RE :=
  rseqs [.group 1 rnum, rsstar, .opt (.seq (rstr "square") rsstar),
         ralts [rstr "m", rstr "meter", rstr "metre", rstr "m2", rstr "m²", rstr "sqm"],
         rsstar,
         .nla (ralts [rstr "high", rstr "deep", rstr "tall", rstr "off", rstr "thick"])]

/-- Linear-meter pattern (fencing). -/
def linearRE : RE :=
  rseqs [.group 1 rnum, rsstar, ralts [rstr "meter", rstr "metre", rstr "m"],
         .opt (.lit 's'), rsstar, .opt (.seq (rstr "of") rsstar),
         .opt (ralts [rstr "fence", rstr "fencing"])]

def weeksRE : RE := rseqs [.group 1 (rplus rdigit), rsstar, rstr "week"]
def monthsRE : RE := rseqs [.group 1 (rplus rdigit), rsstar, rstr "month"]
def gateRE : RE := rseqs [.group 1 (rplus rdigit), rsstar, rstr "gate"]

/-- `[\s-]?`. -/
def rsd : RE := .opt (.cls (spaceChars ++ ['-']) false)

/-- The UK phone pattern's international prefix alternative. -/
def phoneIntl : RE :=
  rseqs [.opt (.lit '('),
         ralts [rseqs [.lit '0', ralts [rstr "0", rstr "11"], .opt (.lit ')'), rsd,
                       .opt (.lit '(')],
                rstr "+"],
         rstr "44", .opt (.lit ')'), rsd,
         .opt (rseqs [.opt (.lit '('), .lit '0', .opt (.lit ')'), rsd])]

/-- The digit-grouping alternatives of the phone pattern, in source order. -/
def phoneBody : RE :=
  ralts [rseqs [rrep rdigit 5, .opt (.lit ')'), rsd, rrange rdigit 4 5],
         rseqs [rrep rdigit 4, .opt (.lit ')'), rsd,
                ralts [rrep rdigit 5, rseqs [rrep rdigit 3, rsd, rrep rdigit 3]]],
         rseqs [rrep rdigit 3, .opt (.lit ')'), rsd, rrep rdigit 3, rsd, rrange rdigit 3 4],
         rseqs [rrep rdigit 2, .opt (.lit ')'), rsd, rrep rdigit 4, rsd, rrep rdigit 4]]

def phoneExt : RE :=
  .opt (rseqs [rsd, ralts [rstr "x", .seq (rstr "ext") (.opt (.lit '.')), rstr "#"],
               rrange rdigit 3 4])

def phoneRE : RE :=
  rseqs [ralts [phoneIntl, .seq (.opt (.lit '(')) (.lit '0')], phoneBody, phoneExt]

def lettersLower : List Char := "abcdefghijklmnopqrstuvwxyz".toList
def lettersUpper : List Char := "ABCDEFGHIJKLMNOPQRSTUVWXYZ".toList
def lettersBoth : List Char := lettersLower ++ lettersUpper
def digitChars : List Char := "0123456789".toList

/-- Email pattern. -/
def emailRE : RE :=
  .group 1 (rseqs [rplus (.cls (lettersBoth ++ digitChars ++ "._+-".toList) false),
                   .lit '@',
                   rplus (.cls (lettersBoth ++ digitChars ++ ".-".toList) false),
                   .lit '.',
                   ratleast (.cls lettersBoth false) 2])

def postcodeStopWords : List String :=
  ["budget", "about", "around", "price", "cost", "money", "cheap", "steep",
   "slope", "level", "width", "length", "depth", "high", "tall", "area", "size"]

/-- Loose postcode pattern with its keyword-excluding negative lookahead. -/
def postcodeRE : RE :=
  rseqs [.wordB,
         .nla (.seq (ralts (postcodeStopWords.map rstr)) .wordB),
         .group 1 (rrange (.cls (lettersBoth ++ digitChars ++ spaceChars) false) 3 10),
         .wordB]

/-- Budget pattern. -/
def budgetRE : RE :=
  rseqs [.opt (ralts [rstr "budget", rstr "is", rstr "about", rstr "around"]),
         rsstar, .opt (.cls ['£', '$'] false), rsstar, .group 1 rnum, rsstar,
         .opt (ralts [rstr "k", rstr "thousand"])]

/-- Strict UK postcode pattern (tested anchored, case-insensitively). -/
def strictUkRE : RE :=
  rseqs [rrange (.cls lettersBoth false) 1 2, rrange rdigit 1 2,
         .opt (.cls lettersBoth false), .opt rspace, rdigit,
         rrep (.cls lettersBoth false) 2]

-- Keyword families --------------------------------------------------------

def isAffirmative (msg : List Char) : Bool :=
  msg == kw "yes" || msg == kw "yep" || msg == kw "yeah" || msg == kw "yeh" ||
  msg == kw "ye" || msg == kw "sure" || msg == kw "ok" ||
  inc msg "yeah" || inc msg "definitely" || inc msg "absolutely" || inc msg "of course"

def isNegative (msg : List Char) : Bool :=
  msg == kw "no" || msg == kw "nope" || msg == kw "nah" || msg == kw "na" ||
  inc msg "no " || inc msg "not really"

def hardscapingKws : List (List Char) :=
  [kw "patio", kw "paving", kw "hardscape", kw "paty", kw "patyo", kw "pato",
   kw "paio", kw "pavimg", kw "pavong", kw "pavin", kw "pavng",
   kw "hardlanscing", kw "hardlscaping", kw "hardscpaing", kw "ptio",
   kw "pving", kw "pavng", kw "payshio", kw "payving", kw "paytio", kw "pave",
   kw "paver", kw "brick", kw "stone paving", kw "stone work", kw "stonework",
   kw "slab", kw "flag", kw "yard", kw "courtyard", kw "terrace", kw "flagstone"]

def deckingKws : List (List Char) :=
  [kw "deck", kw "deckling", kw "dekcing", kw "deking", kw "deckin", kw "dck",
   kw "dek", kw "decc", kw "dekk", kw "deeking", kw "wood platform",
   kw "timber platform", kw "raised platform"]

def mowingKws : List (List Char) :=
  [kw "mow", kw "lawn", kw "grass", kw "cut", kw "cutting", kw "trim",
   kw "moww", kw "moing", kw "mowin", kw "mawing", kw "lwn", kw "lwan",
   kw "gras", kw "grss", kw "moe", kw "moh", kw "cut the grass",
   kw "trim the lawn", kw "grass cutting", kw "lawn care",
   kw "garden maintenance", kw "keep tidy"]

def plantingKws : List (List Char) :=
  [kw "plant", kw "flower", kw "shrub", kw "bed", kw "border", kw "plnat",
   kw "plantng", kw "palnt", kw "planting", kw "flowr", kw "flowrs",
   kw "shrbs", kw "planter", kw "vegetation", kw "greenery", kw "flower bed",
   kw "herbaceous", kw "perennial"]

def fencingKws : List (List Char) :=
  [kw "fence", kw "fencing", kw "hedge", kw "hedging", kw "boundary",
   kw "fense", kw "fance", kw "fencng", kw "fencig", kw "hegde", kw "hdge",
   kw "panel", kw "privacy screen", kw "enclosure", kw "barrier", kw "perimeter"]

def framingKws : List (List Char) :=
  [kw "pergola", kw "frame", kw "structure", kw "gazebo", kw "arbor",
   kw "pergolla", kw "pergla", kw "pergola", kw "gazbo", kw "gazzebo",
   kw "arbour", kw "overhead", kw "canopy", kw "trellis", kw "archway",
   kw "outdoor structure"]

def softscapingKws : List (List Char) :=
  [kw "landscape", kw "garden", kw "landscaping", kw "land scape",
   kw "land scaping", kw "soft scape", kw "soft scaping", kw "landscpaing",
   kw "landscpe", kw "lanscaping", kw "gardn", kw "gardning", kw "gardan",
   kw "outdoor space", kw "garden design", kw "outdoor design",
   kw "green space", kw "garden transformation"]

def standardTierKws : List (List Char) :=
  [kw "cheap", kw "budget", kw "basic", kw "softwood", kw "soft wood",
   kw "softwood panel", kw "concrete", kw "concrete paver", kw "standard",
   kw "container plant", kw "basic cut", kw "cut and collect",
   kw "basic pergola", kw "basic frame", kw "basic planting",
   kw "basic landscaping", kw "normal", kw "regular", kw "simple",
   kw "ordinary", kw "just a", kw "budjet", kw "cheep", kw "baic",
   kw "standrd", kw "softwod", kw "conrete", kw "affordable", kw "economical",
   kw "cost effective", kw "on a budget", kw "save money", kw "inexpensive",
   kw "value", kw "reasonable price", kw "not expensive", kw "lower cost",
   kw "entry level", kw "starter", kw "essential"]

def luxuryTierKws : List (List Char) :=
  [kw "luxury", kw "high-end", kw "ipe", kw "hardwood", kw "hard wood",
   kw "ipe hardwood", kw "porcelain", kw "porcelain paving", kw "cedar",
   kw "premium cedar", kw "full grounds", kw "full maintenance",
   kw "architectural", kw "architectural planting", kw "custom hardwood",
   kw "full architectural design", kw "best", kw "top", kw "luxary",
   kw "luxry", kw "porcelin", kw "ceadar", kw "high quality",
   kw "top quality", kw "top tier", kw "finest", kw "high spec",
   kw "upscale", kw "top of the range", kw "top of the line", kw "executive",
   kw "deluxe", kw "exclusive", kw "bespoke", kw "best quality",
   kw "nothing but the best", kw "spare no expense"]

def premiumTierKws : List (List Char) :=
  [kw "composite", kw "sandstone", kw "mid", kw "composite decking",
   kw "indian sandstone", kw "treated slat", kw "slat", kw "precision",
   kw "precision cut", kw "edge", kw "edging", kw "specimen",
   kw "specimen plant", kw "engineered", kw "engineered timber",
   kw "premium planting", kw "premium specimen", kw "decent",
   kw "good quality", kw "middle", kw "premium", kw "composit",
   kw "sandston", kw "decnt", kw "speciman", kw "enginered", kw "premum",
   kw "preimum", kw "mid-range", kw "mid range", kw "middle of the road",
   kw "good but not crazy", kw "reasonable quality", kw "solid quality",
   kw "well made", kw "durable"]

def excavatorNegKws : List (List Char) :=
  [kw "narrow", kw "small gate", kw "70cm", kw "80cm", kw "tight",
   kw "won\x27t fit", kw "can\x27t", kw "too narrow", kw "not wide enough",
   kw "restricted", kw "limited access", kw "difficult access",
   kw "no access", kw "tight squeeze", kw "won\x27t get through",
   kw "too tight", kw "side passage", kw "alley", kw "not sure"]

def excavatorPosKws : List (List Char) :=
  [kw "wide", kw "good access", kw "fits", kw "it fits", kw "there is",
   kw "it can", kw "plenty of room", kw "easy access", kw "wide enough",
   kw "no problem", kw "can get through", kw "accessible", kw "open access",
   kw "should fit"]

def drivewayNegKws : List (List Char) :=
  [kw "no driveway", kw "street", kw "on the road", kw "no drive",
   kw "on street", kw "road parking", kw "street parking", kw "permit",
   kw "public road", kw "haven\x27t got", kw "don\x27t have"]

def drivewayPosKws : List (List Char) :=
  [kw "driveway", kw "parking", kw "have a drive", kw "got a drive",
   kw "front drive", kw "off street", kw "private", kw "own parking",
   kw "car park"]

def slopeFlatKws : List (List Char) :=
  [kw "flat", kw "fla", kw "level", kw "even", kw "no slope",
   kw "completely flat", kw "totally level", kw "nice and flat",
   kw "perfectly level", kw "no gradient", kw "horizontal"]

def slopeSteepKws : List (List Char) :=
  [kw "steep", kw "very slope", kw "hill", kw "quite slope", kw "steepe",
   kw "steap", kw "really steep", kw "very steep", kw "quite steep",
   kw "hilly", kw "sharp slope", kw "incline", kw "on a hill",
   kw "sloped garden"]

def slopeModerateKws : List (List Char) :=
  [kw "slope", kw "moderate", kw "bit of", kw "slight", kw "gentle slope",
   kw "bit sloped", kw "some slope", kw "sloping", kw "gradual",
   kw "not too steep", kw "bit of a slope"]

def demolitionPosKws : List (List Char) :=
  [kw "remove", kw "tear out", kw "demolish", kw "existing", kw "a little",
   kw "some ", kw "need to remove", kw "demolish needed", kw "bit of",
   kw "old", kw "remov", kw "demolis", kw "exsting", kw "take out",
   kw "rip out", kw "clear out", kw "get rid of", kw "strip out",
   kw "take up", kw "pull up", kw "needs removing", kw "to be removed",
   kw "old patio", kw "old deck", kw "something there"]

def demolitionNegKws : List (List Char) :=
  [kw "new", kw "fresh", kw "no removal", kw "nothing", kw "clean",
   kw "fresh start", kw "blank slate", kw "bare ground", kw "empty",
   kw "clear", kw "nothing there", kw "clean site", kw "no existing"]

def budgetAlignPosKws : List (List Char) :=
  [kw "yes", kw "sure", kw "ok", kw "okay", kw "sounds good",
   kw "that works", kw "aligns", kw "within budget", kw "good for me",
   kw "perfect", kw "great", kw "fine", kw "yep", kw "yeah", kw "yeh",
   kw "absolutely", kw "definitely", kw "works for me", kw "good to go",
   kw "let\x27s do it", kw "let\x27s go", kw "approved", kw "agree",
   kw "accept"]

def budgetAlignNegKws : List (List Char) :=
  [kw "no ", kw "nope", kw "nah", kw "too much", kw "expensive",
   kw "over budget", kw "can\x27t afford", kw "too high", kw "out of budget",
   kw "more than", kw "exceeds", kw "not sure", kw "need to think",
   kw "discuss", kw "reduce", kw "lower"]

-- Per-field extraction values ----------------------------------------------

/-- Service classification: first-match priority chain. -/
def serviceVal (msg : List Char) : Option ServiceType :=
  if incAny msg hardscapingKws then some .hardscaping
  else if incAny msg deckingKws then some .decking
  else if incAny msg mowingKws then some .mowing
  else if incAny msg plantingKws then some .planting
  else if incAny msg fencingKws then some .fencing
  else if incAny msg framingKws then some .framing
  else if incAny msg softscapingKws then some .softscaping
  else none

/-- Dimensions: first matching pattern of the two sets length and width. -/
def dimsVal (msg : List Char) : Option (ℚ × ℚ) :=
  match reSearch dimRE1 msg with
  | some m => some (parseQnum ((capGet m 1).getD []), parseQnum ((capGet m 2).getD []))
  | none =>
    match reSearch dimRE2 msg with
    | some m => some (parseQnum ((capGet m 1).getD []), parseQnum ((capGet m 2).getD []))
    | none => none

/-- Deck height, evaluated before the area pattern; returns the assigned
height (if any) and the `isHeight` suppression flag. -/
def heightVal (msg : List Char) : Option ℚ × Bool :=
  match reSearch heightRE msg with
  | some m =>
    let val := parseQnum ((capGet m 1).getD [])
    let hasKeywords := inc msg "high" || inc msg "off" || inc msg "ground"
    if (hasKeywords || (decide (val < 3) && decide (val > 0))) && decide (val < 10) then
      (some val, true)
    else (none, false)
  | none =>
    if inc msg "ground level" || inc msg "flush" || inc msg "low" then
      (some (1/10), true)
    else (none, false)

/-- Area: suppressed when height matched; bare area only when no length
was set; the fencing linear-meter match overrides. -/
def areaVal (msg : List Char) (lengthSet : Option ℚ) (isHeight : Bool) : Option ℚ :=
  if isHeight then none
  else
    let bare :=
      match reSearch areaRE msg with
      | some m =>
        let isActuallyHeight := inc msg "high" || inc msg "deep" || inc msg "off the ground"
        if !jsTruthyQ lengthSet && !isActuallyHeight then
          some (parseQnum ((capGet m 1).getD []))
        else none
      | none => none
    let fenceA :=
      if inc msg "fence" || inc msg "fencing" then
        match reSearch linearRE msg with
        | some m => some (parseQnum ((capGet m 1).getD []))
        | none => none
      else none
    match fenceA with
    | some v => some v
    | none => bare

def tierVal (msg : List Char) : Option MaterialTier :=
  if incAny msg standardTierKws then some .standard
  else if incAny msg luxuryTierKws then some .luxury
  else if incAny msg premiumTierKws then some .premium
  else none

def excavatorVal (msg : List Char) : Option Bool :=
  if incAny msg excavatorNegKws || isNegative msg then some false
  else if incAny msg excavatorPosKws || isAffirmative msg then some true
  else none

def drivewayVal (msg : List Char) : Option Bool :=
  if incAny msg drivewayNegKws || isNegative msg then some false
  else if incAny msg drivewayPosKws || isAffirmative msg then some true
  else none

def slopeVal (msg : List Char) : Option SlopeLevel :=
  if incAny msg slopeFlatKws then some .flat
  else if incAny msg slopeSteepKws then some .steep
  else if incAny msg slopeModerateKws then some .moderate
  else none

def demolitionVal (msg : List Char) : Option Bool :=
  if incAny msg demolitionPosKws || isAffirmative msg then some true
  else if incAny msg demolitionNegKws || isNegative msg then some false
  else none

def overgrownVal (msg : List Char) : Option Bool :=
  match reSearch monthsRE msg with
  | some _ => some true
  | none =>
    match reSearch weeksRE msg with
    | some m => some (decide (parseNatL ((capGet m 1).getD []) > 2))
    | none =>
      if inc msg "overgrown" || inc msg "long grass" || inc msg "not cut" ||
         inc msg "while" || inc msg "ages" || inc msg "long time" then some true
      else if inc msg "recent" || inc msg "last week" || inc msg "yesterday" ||
              inc msg "few days" then some false
      else none

def gatesVal (msg : List Char) : Option ℤ :=
  match reSearch gateRE msg with
  | some m => some ((parseNatL ((capGet m 1).getD []) : ℤ))
  | none =>
    if inc msg "one gate" || inc msg "a gate" then some 1
    else if inc msg "two gate" then some 2
    else if inc msg "no gate" then some 0
    else none

def budgetAlignsVal (msg : List Char) : Option Bool :=
  if incAny msg budgetAlignPosKws then some true
  else if incAny msg budgetAlignNegKws then some false
  else none

/-- Full name, with the source's relaxed validation. -/
def fullNameVal (u msg : List Char) : Option (List Char) :=
  let trimmedMsg := trimStr u
  let isExplicitName := inc msg "name is" || inc msg "call me" || inc msg "i am"
  let wordCount := wordCountOf trimmedMsg
  let digitCount := (u.filter Char.isDigit).length
  let looksLikePhone := decide (digitCount > 5)
  if (isExplicitName || (decide (wordCount ≤ 4) && decide (wordCount ≥ 1))) &&
     decide (trimmedMsg.length > 2) && decide (trimmedMsg.length < 50) &&
     !looksLikePhone &&
     !inc msg "@" && !inc msg "http" &&
     !inc msg "what" && !inc msg "how" && !inc msg "why" && !inc msg "when" then
    some trimmedMsg
  else none

def phoneVal (msg : List Char) : Option (List Char) :=
  match reSearch phoneRE msg with
  | some m =>
    if (m.matched.filter Char.isDigit).length ≥ 9 then some m.matched else none
  | none => none

def emailVal (msg : List Char) : Option (List Char) :=
  match reSearch emailRE msg with
  | some m => some (lowerStr ((capGet m 1).getD []))
  | none => none

def postcodeVal (msg : List Char) : Option (List Char) :=
  match reSearch postcodeRE msg with
  | some m =>
    let rawPostcode := upperStr (trimStr ((capGet m 1).getD []))
    if rawPostcode.length ≥ 3 then some rawPostcode else none
  | none => none

/-- `/^\s*0\d/.test(msg)`. -/
def startsWithZeroB (msg : List Char) : Bool :=
  match msg.dropWhile isSpaceChar with
  | '0' :: d :: _ => d.isDigit
  | _ => false

def budgetUnitPrefixes : List (List Char) :=
  [kw "m", kw "sq", kw "ft", kw "cm", kw "mm", kw "x", kw "by", kw "meter",
   kw "metre", kw "deck", kw "patio", kw "paver", kw "slab"]

/-- The budget section's assignment decision: `some (amount, explicit)`
when the section assigns a budget, `none` on every non-assigning path
(no match, the leading-zero rule, the measurement-unit early return, the
sanity range). -/
def budgetVal (msg : List Char) (isPhone : Bool) : Option (ℚ × Bool) :=
  let hasCurrency := inc msg "£" || inc msg "$" || inc msg "euro" || inc msg "budget"
  let startsWithZero := startsWithZeroB msg
  if !isPhone || hasCurrency then
    match reSearch budgetRE msg with
    | some m =>
      if startsWithZero && !hasCurrency then none
      else
        let amount0 := parseQnum ((capGet m 1).getD [])
        let amount := if inc msg "k" || inc msg "thousand" then amount0 * 1000 else amount0
        let postMatch := trimStr (msg.drop (m.idx + m.matched.length))
        if budgetUnitPrefixes.any (fun p => p.isPrefixOf postMatch) then none
        else if decide (amount > 100) && decide (amount < 2000000) then
          some (amount, hasCurrency)
        else none
    | none => none
  else none

/-- The budget section, including its early `return extracted` when the
matched number is immediately followed by a measurement unit (a
non-assigning path, like the other guards). -/
def budgetStep (msg : List Char) (e : ExtractedInfo) : ExtractedInfo :=
  match budgetVal msg (jsTruthyS e.contactPhone) with
  | some ab => { e with userBudget := some ab.1, explicitBudget := some ab.2 }
  | none => e

/-- Every section of `extractLocalInformation` before the budget section,
in source order; each section conditionally assigns its fields (`oupd`:
`some` = assigned, `none` = left as it was). -/
def extractPre (u : List Char) : ExtractedInfo :=
  let msg := lowerStr u
  let e0 : ExtractedInfo := {}
  let e1 := { e0 with service := oupd (serviceVal msg) e0.service }
  let e2 := { e1 with
    length_m := oupd ((dimsVal msg).map Prod.fst) e1.length_m
    width_m := oupd ((dimsVal msg).map Prod.snd) e1.width_m }
  let hv := heightVal msg
  let e3 := { e2 with deckHeight_m := oupd hv.1 e2.deckHeight_m }
  let e4 := { e3 with area_m2 := oupd (areaVal msg e3.length_m hv.2) e3.area_m2 }
  let e5 := { e4 with materialTier := oupd (tierVal msg) e4.materialTier }
  let e6 := { e5 with hasExcavatorAccess := oupd (excavatorVal msg) e5.hasExcavatorAccess }
  let e7 := { e6 with hasDrivewayForSkip := oupd (drivewayVal msg) e6.hasDrivewayForSkip }
  let e8 := { e7 with slopeLevel := oupd (slopeVal msg) e7.slopeLevel }
  let e9 := { e8 with existingDemolition := oupd (demolitionVal msg) e8.existingDemolition }
  let e10 := { e9 with overgrown := oupd (overgrownVal msg) e9.overgrown }
  let e11 := { e10 with gateCount := oupd (gatesVal msg) e10.gateCount }
  let e12 := { e11 with budgetAligns := oupd (budgetAlignsVal msg) e11.budgetAligns }
  let e13 := { e12 with fullName := oupd (fullNameVal u msg) e12.fullName }
  let e14 := { e13 with contactPhone := oupd (phoneVal msg) e13.contactPhone }
  let e15 := { e14 with contactEmail := oupd (emailVal msg) e14.contactEmail }
  { e15 with postalCode := oupd (postcodeVal msg) e15.postalCode }

/-- `extractLocalInformation` (src/unnamed/part_004, primary variant):
one pass over the utterance — every section in source order, the budget
section (with its early return) last. -/
def extractLocalInformation (u : List Char) : ExtractedInfo :=
  budgetStep (lowerStr u) (extractPre u)

-- ===========================================================================
-- Dialogue state manager (src/src/conversationManager.ts).
-- The `messageHistory` transcript is omitted: no verified function reads it.
-- ===========================================================================

structure ConversationState where
  service : Option ServiceType := none
  area_m2 : Option ℚ := none
  length_m : Option ℚ := none
  width_m : Option ℚ := none
  materialTier : Option MaterialTier := none
  hasExcavatorAccess : Option Bool := none
  hasDrivewayForSkip : Option Bool := none
  slopeLevel : Option SlopeLevel := none
  subBaseType : Option SubBaseType := none
  existingDemolition : Option Bool := none
  deckHeight_m : Option ℚ := none
  overgrown : Option Bool := none
  gateCount : Option ℤ := none
  wantsDrainage : Option Bool := none
  wantsLedLighting : Option Bool := none
  certaintyLevel : ℤ := 0
  awaitingEstimate : Bool := false
  retryCount : List (List Char × ℕ) := []
  lastQuestionField : Option (List Char) := none
  showQuickReplies : Bool := false
  budgetAligns : Option Bool := none
  contactPhone : Option (List Char) := none
  contactEmail : Option (List Char) := none
  fullName : Option (List Char) := none
  userBudget : Option ℚ := none
  postalCode : Option (List Char) := none
  projectStartTiming : Option (List Char) := none
  groundSoilType : Option (List Char) := none
deriving DecidableEq, Repr

def createInitialState : ConversationState := {}

-- Certainty (completeness) score --------------------------------------------

/-- The score/maxScore accumulation of `calculateCertainty`, as a function
of the truthiness of the fields it reads.  Base block: service 25,
dimensions 30, material tier 20; then the service-dependent block. -/
def certaintyCore (service : Option ServiceType)
    (dims tier over acc drv slp dem : Bool) : ℤ :=
  let base : ℤ :=
    (if service.isSome then 25 else 0) + (if dims then 30 else 0) +
    (if tier then 20 else 0)
  let branchScore : ℤ :=
    if service == some .mowing then (if over then 25 else 0)
    else if service == some .planting || service == some .softscaping then
      (if slp then 5 else 0) + (if drv then 5 else 0)
    else
      (if acc then 10 else 0) + (if drv then 5 else 0) +
      (if slp then 5 else 0) + (if dem then 5 else 0)
  let branchMax : ℤ :=
    if service == some .mowing then 25
    else if service == some .planting || service == some .softscaping then 10
    else 25
  let score := base + branchScore
  let maxScore := (75 : ℤ) + branchMax
  jround ((score : ℚ) / (maxScore : ℚ) * 100)

def calculateCertainty (s : ConversationState) : ℤ :=
  certaintyCore s.service
    (jsTruthyQ s.area_m2 || (jsTruthyQ s.length_m && jsTruthyQ s.width_m))
    s.materialTier.isSome
    (s.overgrown != none)
    (s.hasExcavatorAccess != none)
    (s.hasDrivewayForSkip != none)
    s.slopeLevel.isSome
    (s.existingDemolition != none)

-- Current-field detection ----------------------------------------------------

def excavationServices : List ServiceType :=
  [.hardscaping, .decking, .fencing, .framing]

def heavyWorkServices : List ServiceType :=
  [.hardscaping, .decking, .fencing, .framing, .softscaping]

/-- `state.service && arr.includes(state.service)`. -/
def serviceIn (s : ConversationState) (arr : List ServiceType) : Bool :=
  match s.service with
  | some sv => arr.contains sv
  | none => false

def detectCurrentField (s : ConversationState) : List Char :=
  if s.service == none then kw "service"
  else if !jsTruthyQ s.area_m2 && !jsTruthyQ s.length_m && !jsTruthyQ s.width_m then
    kw "dimensions"
  else if s.materialTier == none then kw "materialTier"
  else if s.hasExcavatorAccess == none && serviceIn s excavationServices then
    kw "excavatorAccess"
  else if s.service == some .decking && s.deckHeight_m == none then kw "deckHeight"
  else if s.service == some .mowing && s.overgrown == none then kw "overgrown"
  else if s.service == some .fencing && s.gateCount == none then kw "gateCount"
  else if s.hasDrivewayForSkip == none && serviceIn s heavyWorkServices then
    kw "driveway"
  else if s.slopeLevel == none && serviceIn s heavyWorkServices then kw "slope"
  else if s.existingDemolition == none &&
          (s.service == some .hardscaping || s.service == some .decking) then
    kw "demolition"
  else if !jsTruthyS s.fullName then kw "fullName"
  else if !jsTruthyS s.contactPhone then kw "contactPhone"
  else if !jsTruthyS s.contactEmail then kw "contactEmail"
  else if s.userBudget == none then kw "userBudget"
  else if !jsTruthyS s.postalCode then kw "postalCode"
  else kw "unknown"

-- State update ---------------------------------------------------------------

/-- The area value after the anti-overwrite safeguard. -/
def mergedAreaPre (state : ConversationState) (ex : ExtractedInfo) : Option ℚ :=
  let isDimensionsQuestion :=
    state.lastQuestionField == some (kw "dimensions") || !jsTruthyQ state.area_m2
  if jsTruthyQ ex.area_m2 then
    if jsTruthyQ state.area_m2 && decide (state.area_m2.getD 0 > 2) &&
       decide (ex.area_m2.getD 0 < 2) && !isDimensionsQuestion then
      state.area_m2
    else ex.area_m2
  else state.area_m2

/-- `state.lastQuestionField || detectCurrentField(state)`. -/
def currentFieldOf (state : ConversationState) : List Char :=
  match state.lastQuestionField with
  | some f => if f.isEmpty then detectCurrentField state else f
  | none => detectCurrentField state

/-- `updateStateWithExtraction`: field-specific acceptance rules, in the
source's order.  The imperative sequence of conditional assignments is
rendered as one value per field (each field is assigned at most once,
except the area, which the final length×width derivation may revise). -/
def updateStateWithExtraction (state : ConversationState) (ex : ExtractedInfo) :
    ConversationState :=
  let servF := oupd ex.service state.service
  let areaPre := mergedAreaPre state ex
  let lenF := if jsTruthyQ ex.length_m then ex.length_m else state.length_m
  let widF := if jsTruthyQ ex.width_m then ex.width_m else state.width_m
  let tierF := oupd ex.materialTier state.materialTier
  let accF :=
    if ex.hasExcavatorAccess != none then ex.hasExcavatorAccess
    else state.hasExcavatorAccess
  let drvF :=
    if ex.hasDrivewayForSkip != none then ex.hasDrivewayForSkip
    else state.hasDrivewayForSkip
  let slpF := oupd ex.slopeLevel state.slopeLevel
  let subF := oupd ex.subBaseType state.subBaseType
  let demF :=
    if ex.existingDemolition != none then ex.existingDemolition
    else state.existingDemolition
  -- A deck height is only accepted for decking projects.
  let dhF :=
    if ex.deckHeight_m != none &&
       (state.service == some .decking || ex.service == some .decking) then
      ex.deckHeight_m
    else state.deckHeight_m
  let ovF := if ex.overgrown != none then ex.overgrown else state.overgrown
  let gcF := if jsTruthyZ ex.gateCount then ex.gateCount else state.gateCount
  let wdF := if ex.wantsDrainage != none then ex.wantsDrainage else state.wantsDrainage
  let wlF :=
    if ex.wantsLedLighting != none then ex.wantsLedLighting
    else state.wantsLedLighting
  let baF := if ex.budgetAligns != none then ex.budgetAligns else state.budgetAligns
  let currentField := currentFieldOf state
  let fnF :=
    if jsTruthyS ex.fullName &&
       (currentField == kw "fullName" ||
        hasInfix (lowerStr (ex.fullName.getD [])) (kw "name is")) then
      ex.fullName
    else state.fullName
  let ubF :=
    if ex.userBudget != none &&
       (currentField == kw "userBudget" || ex.explicitBudget == some true) then
      ex.userBudget
    else state.userBudget
  let ceF := if jsTruthyS ex.contactEmail then ex.contactEmail else state.contactEmail
  let cpF := if jsTruthyS ex.contactPhone then ex.contactPhone else state.contactPhone
  -- Context-aware sieve: loose postcodes only when the postcode question
  -- is the one being asked.
  let pcF :=
    if jsTruthyS ex.postalCode &&
       (reTestFull strictUkRE (ex.postalCode.getD []) ||
        currentField == kw "postalCode") then
      ex.postalCode
    else state.postalCode
  let ptF :=
    if jsTruthyS ex.projectStartTiming then ex.projectStartTiming
    else state.projectStartTiming
  let gsF :=
    if jsTruthyS ex.groundSoilType then ex.groundSoilType else state.groundSoilType
  -- Derived area from length × width when area is absent.
  let areaF :=
    if jsTruthyQ lenF && jsTruthyQ widF && !jsTruthyQ areaPre then
      some (lenF.getD 0 * widF.getD 0)
    else areaPre
  let u : ConversationState :=
    { state with
      service := servF, area_m2 := areaF, length_m := lenF, width_m := widF,
      materialTier := tierF, hasExcavatorAccess := accF,
      hasDrivewayForSkip := drvF, slopeLevel := slpF, subBaseType := subF,
      existingDemolition := demF, deckHeight_m := dhF, overgrown := ovF,
      gateCount := gcF, wantsDrainage := wdF, wantsLedLighting := wlF,
      budgetAligns := baF, fullName := fnF, userBudget := ubF,
      contactEmail := ceF, contactPhone := cpF, postalCode := pcF,
      projectStartTiming := ptF, groundSoilType := gsF }
  { u with certaintyLevel := calculateCertainty u }

-- Ready-for-estimate gate ----------------------------------------------------

def heavyAccessServices : List ServiceType :=
  [.hardscaping, .decking, .fencing, .framing]

def groundServices : List ServiceType :=
  [.hardscaping, .decking, .softscaping, .framing]

def isReadyForEstimate (s : ConversationState) : Bool :=
  if s.userBudget == none || s.postalCode == none then false
  else if s.hasExcavatorAccess == none && serviceIn s heavyAccessServices then false
  else if s.slopeLevel == none && serviceIn s groundServices then false
  else if s.service == some .fencing && s.gateCount == none then false
  else if s.service == some .decking && s.deckHeight_m == none then false
  else decide (s.certaintyLevel ≥ 85)

-- ===========================================================================
-- Quick-reply fallback literals (`getFallbackQuickReplies`,
-- src/unnamed/part_005).  A quick reply is modelled by its `value`
-- payload: the `text` caption is presentational UI copy never parsed by
-- the code under verification.
-- ===========================================================================

def WRITE_IT_OUT : List Char := kw "__write_it_out__"

def getFallbackQuickReplies (field : List Char) (state : ConversationState) :
    List (List Char) :=
  if field == kw "service" then
    [kw "patio", kw "decking", kw "lawn mowing", kw "landscaping",
     kw "planting", kw "fencing", kw "pergola"]
  else if field == kw "dimensions" then
    [kw "15 square meters", kw "35 square meters", kw "75 square meters",
     kw "120 square meters", kw "let me type it"]
  else if field == kw "materialTier" then
    if state.service == some .hardscaping then
      [kw "basic concrete pavers", kw "indian sandstone", kw "porcelain paving"]
    else if state.service == some .decking then
      [kw "treated softwood", kw "composite decking", kw "ipe hardwood"]
    else
      [kw "essential option", kw "premium quality", kw "luxury "]
  else if field == kw "excavatorAccess" then
    [kw "yes wide access", kw "narrow gate"]
  else if field == kw "driveway" then
    [kw "yes driveway", kw "on street"]
  else if field == kw "slope" then
    [kw "flat ground", kw "moderate slope", kw "steep slope"]
  else if field == kw "demolition" then
    [kw "yes need to remove existing", kw "no nothing there"]
  else if field == kw "deckHeight" then
    [kw "0.3 meters high", kw "0.8 meters high", kw "1.2 meters high",
     kw "2 meters high"]
  else if field == kw "overgrown" then
    [kw "last week", kw "3 weeks ago"]
  else if field == kw "gateCount" then
    [kw "no gates", kw "one gate", kw "two gates", kw "three gates"]
  else if field == kw "budgetAlignment" then
    [kw "yes that works", kw "too expensive need to discuss"]
  else if field == kw "fullName" then
    [kw "John Smith", kw "Guest User"]
  else if field == kw "contactPhone" then
    [kw "07700900000", kw "0000000000"]
  else if field == kw "contactEmail" then
    [kw "user@example.com", kw "guest@example.com"]
  else if field == kw "userBudget" then
    [kw "£4000", kw "£7500", kw "£15000", kw "£25000", kw "£0", WRITE_IT_OUT]
  else if field == kw "projectStartTiming" then
    [kw "As soon as possible", kw "Within the next 3 months",
     kw "Just planning ahead", kw "Not sure yet"]
  else []

/-- Is the quick-reply field name satisfied in a state?  Mirrors the
per-field clauses of the source's `isRelevantFieldExtracted` (which field
of the state each question name refers to), extended to the two fields
that function's switch has no case for (`budgetAlignment` →
`budgetAligns`, `projectStartTiming` → `projectStartTiming`). -/
def fieldIsSet (field : List Char) (s : ConversationState) : Bool :=
  if field == kw "service" then s.service != none
  else if field == kw "dimensions" then s.area_m2 != none || s.length_m != none
  else if field == kw "materialTier" then s.materialTier != none
  else if field == kw "excavatorAccess" then s.hasExcavatorAccess != none
  else if field == kw "driveway" then s.hasDrivewayForSkip != none
  else if field == kw "slope" then s.slopeLevel != none
  else if field == kw "demolition" then s.existingDemolition != none
  else if field == kw "deckHeight" then s.deckHeight_m != none
  else if field == kw "overgrown" then s.overgrown != none
  else if field == kw "gateCount" then s.gateCount != none
  else if field == kw "budgetAlignment" then s.budgetAligns != none
  else if field == kw "fullName" then s.fullName != none
  else if field == kw "contactPhone" then s.contactPhone != none
  else if field == kw "contactEmail" then s.contactEmail != none
  else if field == kw "userBudget" then s.userBudget != none
  else if field == kw "projectStartTiming" then s.projectStartTiming != none
  else false

/-- A state in which `field` is the currently-asked question: the fresh
conversation state, with the service set when the question itself is
service-specific, and the asked field recorded. -/
def askingState (field : List Char) (service : Option ServiceType) :
    ConversationState :=
  { createInitialState with
    service := service
    lastQuestionField := some field }

/-- The (field, state) pairs under which the fallback quick replies are
offered: one per switch case, with the three material-tier branches
keyed by the state's service. -/
def fallbackContexts : List (List Char × ConversationState) :=
  [(kw "service", askingState (kw "service") none),
   (kw "dimensions", askingState (kw "dimensions") (some .hardscaping)),
   (kw "materialTier", askingState (kw "materialTier") (some .hardscaping)),
   (kw "materialTier", askingState (kw "materialTier") (some .decking)),
   (kw "materialTier", askingState (kw "materialTier") (some .softscaping)),
   (kw "excavatorAccess", askingState (kw "excavatorAccess") (some .hardscaping)),
   (kw "driveway", askingState (kw "driveway") (some .hardscaping)),
   (kw "slope", askingState (kw "slope") (some .hardscaping)),
   (kw "demolition", askingState (kw "demolition") (some .hardscaping)),
   (kw "deckHeight", askingState (kw "deckHeight") (some .decking)),
   (kw "overgrown", askingState (kw "overgrown") (some .mowing)),
   (kw "gateCount", askingState (kw "gateCount") (some .fencing)),
   (kw "budgetAlignment", askingState (kw "budgetAlignment") (some .hardscaping)),
   (kw "fullName", askingState (kw "fullName") (some .hardscaping)),
   (kw "contactPhone", askingState (kw "contactPhone") (some .hardscaping)),
   (kw "contactEmail", askingState (kw "contactEmail") (some .hardscaping)),
   (kw "userBudget", askingState (kw "userBudget") (some .hardscaping)),
   (kw "projectStartTiming", askingState (kw "projectStartTiming") (some .hardscaping))]

/-- Does extracting a literal and merging it (with the field as the
currently-asked question) set the field? -/
def literalParses (field : List Char) (state : ConversationState)
    (literal : List Char) : Bool :=
  fieldIsSet field (updateStateWithExtraction state (extractLocalInformation literal))

/-- The fallback literals that fail to set their field (the claimed
guarantee does not hold for them). -/
def failingLiterals : List (List Char × List Char) :=
  [(kw "dimensions", kw "let me type it"),
   (kw "gateCount", kw "no gates"),
   (kw "gateCount", kw "three gates"),
   (kw "userBudget", kw "£0"),
   (kw "userBudget", WRITE_IT_OUT),
   (kw "projectStartTiming", kw "As soon as possible"),
   (kw "projectStartTiming", kw "Within the next 3 months"),
   (kw "projectStartTiming", kw "Just planning ahead"),
   (kw "projectStartTiming", kw "Not sure yet")]

/-- Every fallback literal outside `failingLiterals` parses. -/
def allNonExceptedLiteralsParse : Bool :=
  fallbackContexts.all (fun fc =>
    (getFallbackQuickReplies fc.1 fc.2).all (fun lit =>
      failingLiterals.contains (fc.1, lit) || literalParses fc.1 fc.2 lit))

/-- Every literal in `failingLiterals` is offered yet fails to parse. -/
def allExceptionsFail : Bool :=
  failingLiterals.all (fun fl =>
    fallbackContexts.any (fun fc =>
      fc.1 == fl.1 && (getFallbackQuickReplies fc.1 fc.2).contains fl.2 &&
      !literalParses fc.1 fc.2 fl.2))

-- ===========================================================================
-- Inputs, item selectors and patch machinery used by the theorems
-- ===========================================================================

/-- A demolition-waste line item, by its label tag. -/
def isDemolitionItem (it : LineItem) : Bool :=
  match it.label with
  | .demolitionWasteL _ => true
  | _ => false

/-- The hardscaping/standard 100 m² flat-site project of the spec's
pricing test, with excavator access denied. -/
def c1input : ProjectInputs :=
  { service := .hardscaping
    hasExcavatorAccess := false
    hasDrivewayForSkip := true
    slopeLevel := .flat
    subBaseType := .dirt
    existingDemolition := false
    length_m := 10, width_m := 10, area_m2 := 100
    materialTier := .standard }

/-- A 15 m² hardscape-removal project (the skip-formula example from the
source's own comment). -/
def c4input : ProjectInputs :=
  { service := .hardscaping
    hasExcavatorAccess := true
    hasDrivewayForSkip := true
    slopeLevel := .flat
    subBaseType := .hardscape
    existingDemolition := true
    length_m := 5, width_m := 3, area_m2 := 15
    materialTier := .standard }

/-- A state with a perfect completeness score but no budget: the gate
must still refuse. -/
def c3state : ConversationState :=
  { createInitialState with
    certaintyLevel := 100
    postalCode := some (kw "SL4 1AA") }

/-- The state in which the budget question has just been asked. -/
def c7stateBudget : ConversationState :=
  { createInitialState with lastQuestionField := some (kw "userBudget") }

-- C9 machinery: adding exactly one field to a conversation state ---------

/-- One state field moving from unset to a set value. -/
inductive FieldPatch where
  | service (v : ServiceType)
  | area (v : ℚ)
  | length (v : ℚ)
  | width (v : ℚ)
  | tier (v : MaterialTier)
  | access (v : Bool)
  | driveway (v : Bool)
  | slope (v : SlopeLevel)
  | subBase (v : SubBaseType)
  | demolition (v : Bool)
  | deckHeight (v : ℚ)
  | overgrown (v : Bool)
  | gates (v : ℤ)
  | drainage (v : Bool)
  | led (v : Bool)
  | budgetAligns (v : Bool)
  | fullName (v : List Char)
  | userBudget (v : ℚ)
  | postalCode (v : List Char)
  | contactEmail (v : List Char)
  | contactPhone (v : List Char)
  | timing (v : List Char)
  | soil (v : List Char)
  | lastQuestion (v : List Char)

def applyPatch : FieldPatch → ConversationState → ConversationState
  | .service v, s => { s with service := some v }
  | .area v, s => { s with area_m2 := some v }
  | .length v, s => { s with length_m := some v }
  | .width v, s => { s with width_m := some v }
  | .tier v, s => { s with materialTier := some v }
  | .access v, s => { s with hasExcavatorAccess := some v }
  | .driveway v, s => { s with hasDrivewayForSkip := some v }
  | .slope v, s => { s with slopeLevel := some v }
  | .subBase v, s => { s with subBaseType := some v }
  | .demolition v, s => { s with existingDemolition := some v }
  | .deckHeight v, s => { s with deckHeight_m := some v }
  | .overgrown v, s => { s with overgrown := some v }
  | .gates v, s => { s with gateCount := some v }
  | .drainage v, s => { s with wantsDrainage := some v }
  | .led v, s => { s with wantsLedLighting := some v }
  | .budgetAligns v, s => { s with budgetAligns := some v }
  | .fullName v, s => { s with fullName := some v }
  | .userBudget v, s => { s with userBudget := some v }
  | .postalCode v, s => { s with postalCode := some v }
  | .contactEmail v, s => { s with contactEmail := some v }
  | .contactPhone v, s => { s with contactPhone := some v }
  | .timing v, s => { s with projectStartTiming := some v }
  | .soil v, s => { s with groundSoilType := some v }
  | .lastQuestion v, s => { s with lastQuestionField := some v }

/-- The patched field was unset (null) before. -/
def patchUnset : FieldPatch → ConversationState → Prop
  | .service _, s => s.service = none
  | .area _, s => s.area_m2 = none
  | .length _, s => s.length_m = none
  | .width _, s => s.width_m = none
  | .tier _, s => s.materialTier = none
  | .access _, s => s.hasExcavatorAccess = none
  | .driveway _, s => s.hasDrivewayForSkip = none
  | .slope _, s => s.slopeLevel = none
  | .subBase _, s => s.subBaseType = none
  | .demolition _, s => s.existingDemolition = none
  | .deckHeight _, s => s.deckHeight_m = none
  | .overgrown _, s => s.overgrown = none
  | .gates _, s => s.gateCount = none
  | .drainage _, s => s.wantsDrainage = none
  | .led _, s => s.wantsLedLighting = none
  | .budgetAligns _, s => s.budgetAligns = none
  | .fullName _, s => s.fullName = none
  | .userBudget _, s => s.userBudget = none
  | .postalCode _, s => s.postalCode = none
  | .contactEmail _, s => s.contactEmail = none
  | .contactPhone _, s => s.contactPhone = none
  | .timing _, s => s.projectStartTiming = none
  | .soil _, s => s.groundSoilType = none
  | .lastQuestion _, s => s.lastQuestionField = none

-- ===========================================================================
-- Theorems
-- ===========================================================================

set_option maxRecDepth 4000

/-- Rounding an integer amount to the nearest pound returns it unchanged. -/
theorem jround_intCast (n : ℤ) : jround ((n : ℚ)) = n := by
  unfold jround
  rw [add_comm, Int.floor_add_int]
  norm_num


/-- C1: with `hasExcavatorAccess = false` the labor line item is
round(laborHours × 85 × 1.45), the material line item is
round(area × tier rate), and the material line item is identical to the
one produced for the same input with access granted — the 1.45 multiplier
touches labor only. -/
theorem excavator_multiplier_labor_only (i : ProjectInputs)
    (h : i.hasExcavatorAccess = false) :
    (calculateUKEstimate i).lineItems.get? 1 =
      some ⟨.laborL true,
            jround (estimateLaborHours i.area_m2 i.service *
                    LABOR_RATE_PER_HOUR_GBP * (145/100)),
            .labor⟩ ∧
    (calculateUKEstimate i).lineItems.get? 0 =
      some ⟨.materialL,
            jround (i.area_m2 * ratePerM2 i.service i.materialTier),
            .material⟩ ∧
    (calculateUKEstimate i).lineItems.get? 0 =
      (calculateUKEstimate { i with hasExcavatorAccess := true }).lineItems.get? 0 := by
  refine ⟨?_, ?_, ?_⟩ <;>
    simp [calculateUKEstimate, preFeeItems, laborItem, laborCost, materialItem, h]

/-- C1 witness: the theorem discharged at the spec's 100 m² hardscaping
test project. -/
theorem excavator_multiplier_labor_only_witness :
    c1input.hasExcavatorAccess = false ∧
    ((calculateUKEstimate c1input).lineItems.get? 1 =
      some ⟨.laborL true,
            jround (estimateLaborHours c1input.area_m2 c1input.service *
                    LABOR_RATE_PER_HOUR_GBP * (145/100)),
            .labor⟩ ∧
     (calculateUKEstimate c1input).lineItems.get? 0 =
      some ⟨.materialL,
            jround (c1input.area_m2 * ratePerM2 c1input.service c1input.materialTier),
            .material⟩ ∧
     (calculateUKEstimate c1input).lineItems.get? 0 =
      (calculateUKEstimate { c1input with hasExcavatorAccess := true }).lineItems.get? 0) :=
  ⟨rfl, excavator_multiplier_labor_only c1input rfl⟩


/-- C4 counterexample: at 15 m² the code produces 2 skips × £350 = £700,
but the claimed 2-ton (6-yard) tons-per-skip constant would give
ceil(15 × 0.15 × 0.6 / 2) × 350 = £350 — the claim is false of the code,
which deliberately uses 1 ton per skip. -/
theorem demolition_two_ton_constant_refuted :
    (calculateUKEstimate c4input).lineItems.find? isDemolitionItem =
      some ⟨.demolitionWasteL 2, 700, .surcharge⟩ ∧
    (700 : ℤ) ≠ jceil ((15 : ℚ) * (15/100) * (6/10) / 2) * 350 := by
  constructor
  · decide!
  · decide!

/-- C4 (amended): for every input with demolition, the demolition-waste
line item is ceil((area × 0.15 × 0.6) / TONS_PER_SKIP) × £350 with the
code's TONS_PER_SKIP = 1 (one conservative ton per skip, not the 2-ton
6-yard figure of the comment's density math). -/
theorem demolition_waste_formula (i : ProjectInputs)
    (h : i.existingDemolition = true) :
    (calculateUKEstimate i).lineItems.find? isDemolitionItem =
      some ⟨.demolitionWasteL (calculateSkipLoads i.area_m2),
            jceil (i.area_m2 * AVERAGE_THICKNESS_M * WOOD_DENSITY_TONS_PER_M3 /
                   TONS_PER_SKIP) * SURCHARGES_skipLoad,
            .surcharge⟩ := by
  simp only [calculateUKEstimate, preFeeItems, surchargeItems, h, if_true]
  by_cases hd : !i.hasDrivewayForSkip <;>
    by_cases hs : i.slopeLevel = .steep <;>
      by_cases hh : jsTruthyQ i.deckHeight_m && decide ((i.deckHeight_m.getD 0) > 3/2) <;>
        simp [hd, hs, hh, List.find?, isDemolitionItem, materialItem, laborItem,
              calculateSkipLoads]

/-- C4 amended witness: the formula discharged at the 15 m² example. -/
theorem demolition_waste_formula_witness :
    c4input.existingDemolition = true ∧
    (calculateUKEstimate c4input).lineItems.find? isDemolitionItem =
      some ⟨.demolitionWasteL (calculateSkipLoads c4input.area_m2),
            jceil (c4input.area_m2 * AVERAGE_THICKNESS_M * WOOD_DENSITY_TONS_PER_M3 /
                   TONS_PER_SKIP) * SURCHARGES_skipLoad,
            .surcharge⟩ :=
  ⟨rfl, demolition_waste_formula c4input rfl⟩

/-- C5: the ballpark bounds are the point estimate × 0.9 and × 1.1, each
rounded independently to the nearest pound, and the point estimate is the
subtotal plus the three wrapper fees (each itself rounded). -/
theorem ballpark_range_rounding (i : ProjectInputs) :
    (calculateUKEstimate i).lowerBound =
      jround (((calculateUKEstimate i).estimate : ℚ) * (90/100)) ∧
    (calculateUKEstimate i).upperBound =
      jround (((calculateUKEstimate i).estimate : ℚ) * (110/100)) ∧
    (calculateUKEstimate i).estimate =
      subtotal i + projectManagementFee i + contingencyFee i + netProfitFee i := by
  have hest : (calculateUKEstimate i).estimate = finalCost i := jround_intCast _
  refine ⟨?_, ?_, ?_⟩
  · rw [hest]; rfl
  · rw [hest]; rfl
  · rw [hest]; rfl

/-- C6: £5,000 and £5,001 fall on opposite sides of the priority-tier
threshold, and in general the project status is VIP exactly when the
point estimate exceeds £5,000. -/
theorem vip_priority_threshold :
    determineProjectStatus 5000 = .standard ∧
    determineProjectStatus 5001 = .vipPriority ∧
    ∀ i : ProjectInputs,
      ((calculateUKEstimate i).projectStatus = .vipPriority ↔
        (calculateUKEstimate i).estimate > 5000) := by
  refine ⟨by decide!, by decide!, fun i => ?_⟩
  show determineProjectStatus (((calculateUKEstimate i).estimate : ℤ) : ℚ) = _ ↔ _
  unfold determineProjectStatus
  split
  · next h =>
    simp only [true_iff]
    exact_mod_cast h
  · next h =>
    constructor
    · intro hc
      exact absurd hc (by simp)
    · intro hc
      exact absurd (by exact_mod_cast hc : ((calculateUKEstimate i).estimate : ℚ) > 5000) h


/-- C3: whenever the budget or the postcode is absent,
`isReadyForEstimate` is false, no matter the completeness score. -/
theorem ready_requires_budget_and_postcode (s : ConversationState)
    (h : s.userBudget = none ∨ s.postalCode = none) :
    isReadyForEstimate s = false := by
  unfold isReadyForEstimate
  rcases h with h | h <;> simp [h]

/-- C3 witness: a budget-less state with score 100 is refused. -/
theorem ready_requires_budget_and_postcode_witness :
    (c3state.userBudget = none ∨ c3state.postalCode = none) ∧
    isReadyForEstimate c3state = false :=
  ⟨Or.inl rfl, ready_requires_budget_and_postcode c3state (Or.inl rfl)⟩

/-- C10: for a non-decking state and a non-decking extraction, the merge
never touches the stored deck height, even when the extraction carries
one. -/
theorem deck_height_only_for_decking (s : ConversationState) (e : ExtractedInfo)
    (hs : s.service ≠ some .decking) (he : e.service ≠ some .decking) :
    (updateStateWithExtraction s e).deckHeight_m = s.deckHeight_m := by
  have hs' : (s.service == some ServiceType.decking) = false := by
    simpa using hs
  have he' : (e.service == some ServiceType.decking) = false := by
    simpa using he
  unfold updateStateWithExtraction
  simp [hs', he']

/-- C10 witness: an extraction carrying a 2 m deck height leaves the
deck height of a fresh (service-less) state untouched. -/
theorem deck_height_only_for_decking_witness :
    createInitialState.service ≠ some .decking ∧
    ({ deckHeight_m := some 2 } : ExtractedInfo).service ≠ some .decking ∧
    (updateStateWithExtraction createInitialState
      { deckHeight_m := some 2 }).deckHeight_m = createInitialState.deckHeight_m :=
  ⟨by decide, by decide,
   deck_height_only_for_decking createInitialState { deckHeight_m := some 2 }
     (by decide) (by decide)⟩


/-- C7: round-trip parsing — "10x5" extracts length 10 and width 5 and
merges into area 50 on a geometry-less state; "10,5m x 5,2m" extracts
length 10.5 and width 5.2; "£7.5k" merged while the budget question is
current yields budget 7500. -/
theorem roundtrip_parsing :
    (extractLocalInformation (kw "10x5")).length_m = some 10 ∧
    (extractLocalInformation (kw "10x5")).width_m = some 5 ∧
    (updateStateWithExtraction createInitialState
      (extractLocalInformation (kw "10x5"))).area_m2 = some 50 ∧
    (extractLocalInformation (kw "10,5m x 5,2m")).length_m = some (105/10) ∧
    (extractLocalInformation (kw "10,5m x 5,2m")).width_m = some (52/10) ∧
    (updateStateWithExtraction c7stateBudget
      (extractLocalInformation (kw "£7.5k"))).userBudget = some 7500 := by
  refine ⟨by decide!, by decide!, by decide!, by decide!, by decide!, by decide!⟩

/-- C8 counterexample: the dimensions fallback literal "let me type it"
is offered, yet extracting and merging it leaves the dimensions unset —
the claimed parse guarantee fails for it. -/
theorem quick_reply_literal_unparsed :
    (getFallbackQuickReplies (kw "dimensions")
      (askingState (kw "dimensions") (some .hardscaping))).contains
        (kw "let me type it") = true ∧
    literalParses (kw "dimensions")
      (askingState (kw "dimensions") (some .hardscaping))
      (kw "let me type it") = false := by
  exact ⟨by decide!, by decide!⟩

/-- C8 (amended): every fallback quick-reply literal sets its field when
extracted and merged under its question — except the nine literals of
`failingLiterals` (the free-text escape hatches "let me type it" and
"__write_it_out__", the gate-count literals "no gates" and "three gates",
the "£0" budget placeholder, and the four project-start-timing literals,
which the extractor has no rule for), each of which is offered and
demonstrably fails. -/
theorem quick_reply_literals_parse :
    allNonExceptedLiteralsParse = true ∧ allExceptionsFail = true := by
  exact ⟨by decide!, by decide!⟩

/-- The budget section never touches the area field. -/
theorem budgetStep_area_m2 (msg : List Char) (e : ExtractedInfo) :
    (budgetStep msg e).area_m2 = e.area_m2 := by
  unfold budgetStep
  cases budgetVal msg (jsTruthyS e.contactPhone) <;> rfl

/-- The budget section never touches the length field. -/
theorem budgetStep_length_m (msg : List Char) (e : ExtractedInfo) :
    (budgetStep msg e).length_m = e.length_m := by
  unfold budgetStep
  cases budgetVal msg (jsTruthyS e.contactPhone) <;> rfl

/-- The extractor's length field comes from the dimension patterns alone. -/
theorem extractPre_length_m (u : List Char) :
    (extractPre u).length_m = oupd ((dimsVal (lowerStr u)).map Prod.fst) none := rfl

/-- The extractor's area field comes from the area section alone, fed the
length set by the dimension section and the height-suppression flag. -/
theorem extractPre_area_m2 (u : List Char) :
    (extractPre u).area_m2 =
      oupd (areaVal (lowerStr u)
              (oupd ((dimsVal (lowerStr u)).map Prod.fst) none)
              (heightVal (lowerStr u)).2)
           none := rfl

/-- C2 counterexample: the claim as stated is false — the fencing
linear-meter rule emits an area alongside length and width
("fence 10m x 5m" → length 10, width 5, area 10), and a zero length does
not suppress the bare-area rule ("0m x 5m" → length 0, width 5, area 0). -/
theorem extractor_emits_area_with_dims :
    ((extractLocalInformation (kw "fence 10m x 5m")).length_m = some 10 ∧
     (extractLocalInformation (kw "fence 10m x 5m")).width_m = some 5 ∧
     (extractLocalInformation (kw "fence 10m x 5m")).area_m2 = some 10) ∧
    ((extractLocalInformation (kw "0m x 5m")).length_m = some 0 ∧
     (extractLocalInformation (kw "0m x 5m")).width_m = some 5 ∧
     (extractLocalInformation (kw "0m x 5m")).area_m2 = some 0) := by
  refine ⟨⟨by decide!, by decide!, by decide!⟩, ⟨by decide!, by decide!, by decide!⟩⟩

/-- C2 (amended): for every utterance that does not mention fencing
(no "fence"/"fencing" substring), if the extractor sets both length and
width to nonzero values then it leaves the area unset — area is derived
later by the merge step.  (The fencing exclusion and the nonzero proviso
are forced by the counterexample.) -/
theorem extractor_area_unset_with_dims (u : List Char)
    (hlen : jsTruthyQ (extractLocalInformation u).length_m = true)
    (hwid : jsTruthyQ (extractLocalInformation u).width_m = true)
    (hf : inc (lowerStr u) "fence" = false)
    (hfg : inc (lowerStr u) "fencing" = false) :
    (extractLocalInformation u).area_m2 = none := by
  have hlen' : jsTruthyQ (extractPre u).length_m = true := by
    rw [show (extractLocalInformation u).length_m = (extractPre u).length_m from
          budgetStep_length_m _ _] at hlen
    exact hlen
  rw [show (extractLocalInformation u).area_m2 = (extractPre u).area_m2 from
        budgetStep_area_m2 _ _]
  rw [extractPre_area_m2]
  rw [extractPre_length_m] at hlen'
  unfold areaVal
  split
  · rfl
  · simp only [hf, hfg, Bool.or_self, Bool.false_or, if_false]
    cases hsr : reSearch areaRE (lowerStr u) with
    | none => rfl
    | some m =>
      simp only [oupd] at hlen' ⊢
      simp [hlen']

/-- C2 amended witness: "10x5" sets nonzero length and width, mentions no
fencing, and indeed carries no area. -/
theorem extractor_area_unset_with_dims_witness :
    jsTruthyQ (extractLocalInformation (kw "10x5")).length_m = true ∧
    jsTruthyQ (extractLocalInformation (kw "10x5")).width_m = true ∧
    inc (lowerStr (kw "10x5")) "fence" = false ∧
    inc (lowerStr (kw "10x5")) "fencing" = false ∧
    (extractLocalInformation (kw "10x5")).area_m2 = none := by
  refine ⟨by decide!, by decide!, by decide!, by decide!,
    extractor_area_unset_with_dims (kw "10x5")
      (by decide!) (by decide!) (by decide!) (by decide!)⟩


/-- Turning the dimensions block satisfied never lowers the score. -/
theorem certaintyCore_dims_mono :
    ∀ (sv : Option ServiceType) (t o a dr sl de : Bool),
      certaintyCore sv false t o a dr sl de ≤ certaintyCore sv true t o a dr sl de := by
  decide!

/-- Setting the material tier never lowers the score. -/
theorem certaintyCore_tier_mono :
    ∀ (sv : Option ServiceType) (d o a dr sl de : Bool),
      certaintyCore sv d false o a dr sl de ≤ certaintyCore sv d true o a dr sl de := by
  decide!

/-- Setting the overgrowth flag never lowers the score. -/
theorem certaintyCore_over_mono :
    ∀ (sv : Option ServiceType) (d t a dr sl de : Bool),
      certaintyCore sv d t false a dr sl de ≤ certaintyCore sv d t true a dr sl de := by
  decide!

/-- Setting excavator access never lowers the score. -/
theorem certaintyCore_acc_mono :
    ∀ (sv : Option ServiceType) (d t o dr sl de : Bool),
      certaintyCore sv d t o false dr sl de ≤ certaintyCore sv d t o true dr sl de := by
  decide!

/-- Setting driveway availability never lowers the score. -/
theorem certaintyCore_drv_mono :
    ∀ (sv : Option ServiceType) (d t o a sl de : Bool),
      certaintyCore sv d t o a false sl de ≤ certaintyCore sv d t o a true sl de := by
  decide!

/-- Setting the slope never lowers the score. -/
theorem certaintyCore_slp_mono :
    ∀ (sv : Option ServiceType) (d t o a dr de : Bool),
      certaintyCore sv d t o a dr false de ≤ certaintyCore sv d t o a dr true de := by
  decide!

/-- Setting the demolition flag never lowers the score. -/
theorem certaintyCore_dem_mono :
    ∀ (sv : Option ServiceType) (d t o a dr sl : Bool),
      certaintyCore sv d t o a dr sl false ≤ certaintyCore sv d t o a dr sl true := by
  decide!

/-- Classifying the service (from unknown) never lowers the score. -/
theorem certaintyCore_service_mono :
    ∀ (v : ServiceType) (d t o a dr sl de : Bool),
      certaintyCore none d t o a dr sl de ≤ certaintyCore (some v) d t o a dr sl de := by
  decide!

/-- C9: the completeness score never decreases when one unset field of
the conversation state is given a value. -/
theorem certainty_monotone_under_new_information (p : FieldPatch)
    (s : ConversationState) (h : patchUnset p s) :
    calculateCertainty s ≤ calculateCertainty (applyPatch p s) := by
  have hnq : jsTruthyQ (none : Option ℚ) = false := rfl
  cases p with
  | service v =>
    simp only [patchUnset] at h
    simp only [applyPatch, calculateCertainty]
    rw [h]
    exact certaintyCore_service_mono v _ _ _ _ _ _ _
  | area v =>
    simp only [patchUnset] at h
    simp only [applyPatch, calculateCertainty]
    rw [h]
    cases hX : (jsTruthyQ s.length_m && jsTruthyQ s.width_m) <;>
      cases hv : jsTruthyQ (some v) <;>
        simp only [hX, hv, hnq, Bool.false_or, Bool.or_false, Bool.or_true,
                   Bool.true_or] <;>
          first
          | exact le_refl _
          | exact certaintyCore_dims_mono _ _ _ _ _ _ _
  | length v =>
    simp only [patchUnset] at h
    simp only [applyPatch, calculateCertainty]
    rw [h]
    cases hA : jsTruthyQ s.area_m2 <;>
      cases hY : (jsTruthyQ (some v) && jsTruthyQ s.width_m) <;>
        simp only [hA, hY, hnq, Bool.false_and, Bool.false_or, Bool.or_false,
                   Bool.true_or, Bool.or_true] <;>
          first
          | exact le_refl _
          | exact certaintyCore_dims_mono _ _ _ _ _ _ _
  | width v =>
    simp only [patchUnset] at h
    simp only [applyPatch, calculateCertainty]
    rw [h]
    cases hA : jsTruthyQ s.area_m2 <;>
      cases hY : (jsTruthyQ s.length_m && jsTruthyQ (some v)) <;>
        simp only [hA, hY, hnq, Bool.and_false, Bool.false_or, Bool.or_false,
                   Bool.true_or, Bool.or_true] <;>
          first
          | exact le_refl _
          | exact certaintyCore_dims_mono _ _ _ _ _ _ _
  | tier v =>
    simp only [patchUnset] at h
    simp only [applyPatch, calculateCertainty]
    rw [h]
    exact certaintyCore_tier_mono _ _ _ _ _ _ _
  | access v =>
    simp only [patchUnset] at h
    simp only [applyPatch, calculateCertainty]
    rw [h]
    exact certaintyCore_acc_mono _ _ _ _ _ _ _
  | driveway v =>
    simp only [patchUnset] at h
    simp only [applyPatch, calculateCertainty]
    rw [h]
    exact certaintyCore_drv_mono _ _ _ _ _ _ _
  | slope v =>
    simp only [patchUnset] at h
    simp only [applyPatch, calculateCertainty]
    rw [h]
    exact certaintyCore_slp_mono _ _ _ _ _ _ _
  | demolition v =>
    simp only [patchUnset] at h
    simp only [applyPatch, calculateCertainty]
    rw [h]
    exact certaintyCore_dem_mono _ _ _ _ _ _ _
  | overgrown v =>
    simp only [patchUnset] at h
    simp only [applyPatch, calculateCertainty]
    rw [h]
    exact certaintyCore_over_mono _ _ _ _ _ _ _
  | subBase v => exact le_refl _
  | deckHeight v => exact le_refl _
  | gates v => exact le_refl _
  | drainage v => exact le_refl _
  | led v => exact le_refl _
  | budgetAligns v => exact le_refl _
  | fullName v => exact le_refl _
  | userBudget v => exact le_refl _
  | postalCode v => exact le_refl _
  | contactEmail v => exact le_refl _
  | contactPhone v => exact le_refl _
  | timing v => exact le_refl _
  | soil v => exact le_refl _
  | lastQuestion v => exact le_refl _

/-- C9 witness: classifying a fresh conversation as mowing raises the
score (0 to 25), never lowering it. -/
theorem certainty_monotone_witness :
    patchUnset (.service .mowing) createInitialState ∧
    calculateCertainty createInitialState ≤
      calculateCertainty (applyPatch (.service .mowing) createInitialState) :=
  ⟨rfl, certainty_monotone_under_new_information (.service .mowing)
          createInitialState rfl⟩

end Landscaping
